import Mathlib

/-!
Verification of the frame-production / device-streaming core of
thermalright-trcc-linux (the controller layer exercised by
tests/test_controllers.py and tests/test_cli.py).

The controller and CLI implementation modules (trcc.core.controllers,
trcc.cli) are not present in the source tree; only their tests are.
Every component below is therefore modelled from the specification,
as an executable shallow embedding: each stateful operation is a pure
function from the component state to a pair of the new state and the
list of notifications it fires, so firing cardinality ("exactly one
notification") is the length of that list.  Reference identity of
frames (the no-copy contracts of the transform chain) is modelled by
making every copying transform produce a structurally new `Frame`
constructor application, so that equality of `Frame` values coincides
with object identity in the modelled code.
-/

/-- Modelled from the spec: image frames flowing through the pipeline.
A `base` frame is a decoded source frame (tagged by an identifier);
each transform that copies produces a new constructor application, so
`Frame` equality models object identity. -/
inductive Frame where
  | base : Nat → Frame
  | transposed : Frame → Frame
  | scaled : Frame → Int → Frame
  | overlaid : Frame → Frame
deriving DecidableEq, Repr

/-- Modelled from the spec: the notifications (assignable callback
fields in the original code) fired by controller operations. -/
inductive Notif where
  | sendStarted : Notif
  | sendFrame : Frame → Notif
  | resolutionChanged : Nat → Nat → Notif
  | configChanged : Notif
  | videoLoaded : Notif
deriving DecidableEq, Repr

/-- Modelled from the spec: a device descriptor
`{path, display_name, native_resolution}`. -/
structure DeviceInfo where
  name : String
  path : String
  resolution : Option (Nat × Nat) := none
deriving DecidableEq, Repr

/-- Modelled from the spec: state of the Device Channel
(DeviceController and its model): detected devices, the optional
selected device, and the single-writer busy flag. -/
structure DeviceController where
  devices : List DeviceInfo := []
  selected_device : Option DeviceInfo := none
  send_busy : Bool := false
deriving DecidableEq, Repr

/-- Modelled from the spec: `submit_async` / `send_image_async`.  If a
prior submission is still in flight (busy flag set) the call is a
silent no-op: it never queues and never blocks (here: the state is
returned unchanged and no notification fires).  With no device
selected the send is likewise a no-op (resource absence, §7b).
Otherwise it marks busy and fires exactly one "send started"
notification synchronously; the transfer itself runs off the calling
control flow and is not part of this synchronous step. -/
def DeviceController.send_image_async (c : DeviceController)
    (_payload : List Nat) (_w _h : Nat) : DeviceController × List Notif :=
  if c.send_busy then
    (c, [])
  else
    match c.selected_device with
    | none => (c, [])
    | some _ => ({ c with send_busy := true }, [Notif.sendStarted])

/-- Modelled from the spec: the playback state machine's states
{STOPPED, PLAYING, PAUSED}. -/
inductive PlaybackState where
  | stopped : PlaybackState
  | playing : PlaybackState
  | paused : PlaybackState
deriving DecidableEq, Repr

/-- Modelled from the spec: state of the Playback Engine
(VideoController and its model): the decoded frame sequence, the
playback cursor `{current_frame, fps}`, the total frame count, the
machine state and the target size fanned out by the orchestrator.
`fps` defaults to 16. -/
structure VideoController where
  frames : List Frame := []
  total_frames : Nat := 0
  current_frame : Nat := 0
  fps : Nat := 16
  state : PlaybackState := PlaybackState.stopped
  target_size : Nat × Nat := (320, 320)
deriving DecidableEq, Repr

/-- Modelled from the spec: `tick()`.  If not PLAYING, returns nothing
(no frame, no side effect, no notification).  If PLAYING, advances
`current_frame` by one, wrapping to 0 when it reaches `frame_count`
(loop semantics), and returns the frame at the new cursor; every such
call additionally fires one "send frame" notification carrying that
frame. -/
def VideoController.tick (c : VideoController) :
    VideoController × Option Frame × List Notif :=
  match c.state with
  | PlaybackState.playing =>
    let next := (c.current_frame + 1) % c.total_frames
    match c.frames.get? next with
    | some f => ({ c with current_frame := next }, some f, [Notif.sendFrame f])
    | none => ({ c with current_frame := next }, none, [])
  | _ => (c, none, [])

/-- Modelled from the spec: Python round-half-to-even of the exact
rational `p / q` (the semantics of Python's built-in `round` on the
exactly representable values arising here), for `q > 0`. -/
def pythonRound (p q : Nat) : Nat :=
  let d := p / q
  let r := p % q
  if 2 * r < q then d
  else if q < 2 * r then d + 1
  else if d % 2 = 0 then d else d + 1

/-- Modelled from the spec: `frame_interval_ms()` is
`round(1000 / fps)`; this value governs the external tick cadence. -/
def VideoController.get_frame_interval (c : VideoController) : Nat :=
  pythonRound 1000 c.fps

/-- Modelled from the spec: the tagged overlay element variant
{TEXT, IMAGE, METRIC}. -/
inductive OverlayElementType where
  | text : OverlayElementType
  | image : OverlayElementType
  | metric : OverlayElementType
deriving DecidableEq, Repr

/-- Modelled from the spec: one overlay element with position,
visibility and content, stored in render order. -/
structure OverlayElement where
  element_type : OverlayElementType := OverlayElementType.text
  text : String := ""
  position : Int × Int := (0, 0)
  visible : Bool := true
deriving DecidableEq, Repr

/-- Modelled from the spec: state of the Overlay Compositor
(OverlayController and its model): enabled flag, the ordered element
sequence, the latest metrics snapshot, the target size and the
background frame the next render composites onto. -/
structure OverlayController where
  enabled : Bool := false
  elements : List OverlayElement := []
  metrics : List (String × Int) := []
  target_size : Nat × Nat := (320, 320)
  background : Frame := Frame.base 0
deriving DecidableEq, Repr

/-- Modelled from the spec: `render(background)`.  If the overlay is
disabled, returns the background unchanged (same reference, not a
copy); if enabled, draws the visible elements onto a copy of the
background (a structurally new frame). -/
def OverlayController.render (c : OverlayController) : Frame :=
  if c.enabled then Frame.overlaid c.background else c.background

/-- Modelled from the spec: `add_element` appends the element and
fires exactly one "configuration changed" notification. -/
def OverlayController.add_element (c : OverlayController)
    (e : OverlayElement) : OverlayController × List Notif :=
  ({ c with elements := c.elements ++ [e] }, [Notif.configChanged])

/-- Modelled from the spec: `update_element(index, element)` validates
index bounds (out-of-range is a no-op); on a valid index it replaces
the element and fires exactly one "configuration changed"
notification. -/
def OverlayController.update_element (c : OverlayController)
    (i : Nat) (e : OverlayElement) : OverlayController × List Notif :=
  if i < c.elements.length then
    ({ c with elements := c.elements.set i e }, [Notif.configChanged])
  else (c, [])

/-- Modelled from the spec: `remove_element(index)` validates index
bounds (out-of-range is a no-op); on a valid index it removes the
element and fires exactly one "configuration changed" notification. -/
def OverlayController.remove_element (c : OverlayController)
    (i : Nat) : OverlayController × List Notif :=
  if i < c.elements.length then
    ({ c with elements := c.elements.eraseIdx i }, [Notif.configChanged])
  else (c, [])

/-- Modelled from the spec: `update_metrics(snapshot)` replaces the
stored snapshot wholesale and causes no immediate re-render. -/
def OverlayController.update_metrics (c : OverlayController)
    (snapshot : List (String × Int)) : OverlayController :=
  { c with metrics := snapshot }

/-- Modelled from the spec: state of the Session Orchestrator
(FormCZTVController): the owned panel geometry (width, height,
rotation, brightness), the `auto_send` flag governing the per-tick
send decision, and the wired sub-controllers whose target sizes it
fans out. -/
structure FormCZTVController where
  lcd_width : Nat
  lcd_height : Nat
  rotation : Int
  brightness : Int
  auto_send : Bool
  video : VideoController
  overlay : OverlayController
deriving DecidableEq, Repr

/-- Modelled from the spec: construction of the Session Orchestrator
from the saved resolution `(w, h)`: geometry starts at that
resolution with rotation 0 and full brightness, `auto_send` starts
enabled so composed frames are submitted to the Device Channel on
each tick unless the caller disables it, and the sub-controllers are
created with the current target size. -/
def FormCZTVController.init (w h : Nat) : FormCZTVController :=
  { lcd_width := w
    lcd_height := h
    rotation := 0
    brightness := 100
    auto_send := true
    video := { target_size := (w, h) }
    overlay := { target_size := (w, h) } }

/-- Modelled from the spec: `set_resolution(w,h)`: a no-op (no
notification fired) if `(w,h)` equals the current geometry; otherwise
it updates the geometry, propagates the new target size to the
Playback Engine and the Overlay Compositor, and fires exactly one
"resolution changed" notification. -/
def FormCZTVController.set_resolution (c : FormCZTVController)
    (w h : Nat) : FormCZTVController × List Notif :=
  if w = c.lcd_width ∧ h = c.lcd_height then (c, [])
  else
    ({ c with
        lcd_width := w
        lcd_height := h
        video := { c.video with target_size := (w, h) }
        overlay := { c.overlay with target_size := (w, h) } },
     [Notif.resolutionChanged w h])

/-- Modelled from the spec: `set_rotation(degrees)` stores
`degrees mod 360` (Python integer modulo: the representative in
`[0, 360)`). -/
def FormCZTVController.set_rotation (c : FormCZTVController)
    (degrees : Int) : FormCZTVController :=
  { c with rotation := degrees % 360 }

/-- Modelled from the spec: `set_brightness(percent)` clamps the
stored brightness to `[0, 100]`. -/
def FormCZTVController.set_brightness (c : FormCZTVController)
    (percent : Int) : FormCZTVController :=
  { c with brightness := max 0 (min 100 percent) }

/-- Modelled from the spec: the rotation transform applied before
every send: 0 degrees returns the input frame unchanged (same
identity, no copy); a non-zero quadrant performs an axis-swap/flip
transpose producing a new frame. -/
def FormCZTVController.apply_rotation (c : FormCZTVController)
    (img : Frame) : Frame :=
  if c.rotation = 0 then img else Frame.transposed img

/-- Modelled from the spec: the brightness transform applied before
every send: percent = 100 returns the input frame unchanged (same
identity, no copy); other values scale every channel sample,
producing a new frame. -/
def FormCZTVController.apply_brightness (c : FormCZTVController)
    (img : Frame) : Frame :=
  if c.brightness = 100 then img else Frame.scaled img c.brightness

/-- Modelled from the spec: the persisted selection store is a small
key-value JSON document, here an ordered association list of string
keys to string values (the keys the CLI uses hold strings). -/
abbrev SettingsDoc := List (String × String)

/-- Modelled from the spec: lookup of a key in the JSON document
(first binding wins; a well-formed JSON object has unique keys). -/
def SettingsDoc.lookupKey : SettingsDoc → String → Option String
  | [], _ => none
  | (k, v) :: rest, key => if k = key then some v else lookupKey rest key

/-- Modelled from the spec: writing one key merges into the existing
document rather than overwriting it (Python dict assignment): an
existing binding of the key is replaced in place, any other key keeps
its binding, and a missing key is appended at the end. -/
def SettingsDoc.setKey : SettingsDoc → String → String → SettingsDoc
  | [], key, v => [(key, v)]
  | (k, w) :: rest, key, v =>
    if k = key then (key, v) :: rest
    else (k, w) :: SettingsDoc.setKey rest key v

/-- Modelled from the spec: `_set_selected_device(p)` loads the
existing settings document, merges the `selected_device` key into it
and writes it back. -/
def set_selected_device (doc : SettingsDoc) (p : String) : SettingsDoc :=
  doc.setKey "selected_device" p

/-- Modelled from the spec: `_get_selected_device()` reads the
`selected_device` key of the settings document; a missing file or key
yields no selection. -/
def get_selected_device (doc : SettingsDoc) : Option String :=
  doc.lookupKey "selected_device"

/-- Modelled from the spec: the tail of the per-tick send decision:
once the composed frame's payload is ready, it is handed to the
Device Channel's asynchronous submit only when `auto_send` is
enabled; otherwise the frame is still computed (for preview) but not
submitted. -/
def FormCZTVController.tick_send (c : FormCZTVController)
    (dev : DeviceController) (payload : List Nat) :
    DeviceController × List Notif :=
  if c.auto_send then dev.send_image_async payload c.lcd_width c.lcd_height
  else (dev, [])

/-- A concrete detected device, as in the tests. -/
def sampleDevice : DeviceInfo :=
  { name := "LCD", path := "/dev/sg0" }

/-- A Device Channel with a selected device and the busy flag clear. -/
def idleChannel : DeviceController :=
  { selected_device := some sampleDevice }

/-- A Device Channel whose busy flag is set (a transfer in flight). -/
def busyChannel : DeviceController :=
  { selected_device := some sampleDevice, send_busy := true }

/-- A freshly constructed Playback Engine (STOPPED, fps 16). -/
def defaultVideo : VideoController := {}

/-- A Playback Engine in the PLAYING state holding two preloaded
frames with the cursor at frame 0, as in the tests. -/
def playingVideo : VideoController :=
  { frames := [Frame.base 0, Frame.base 1]
    total_frames := 2
    current_frame := 0
    state := PlaybackState.playing }

/-- A disabled Overlay Compositor with a distinguished background. -/
def disabledOverlay : OverlayController :=
  { background := Frame.base 7 }

/-- An Overlay Compositor holding one element. -/
def oneElemOverlay : OverlayController :=
  { elements := [{ text := "old" }] }

/-- The Session Orchestrator as constructed in the tests: saved
resolution (320, 320). -/
def baseController : FormCZTVController :=
  FormCZTVController.init 320 320

/-- The base orchestrator after `set_rotation(180)`. -/
def rotatedController : FormCZTVController :=
  baseController.set_rotation 180

/-- A pre-populated settings document holding an unrelated key, as in
the tests. -/
def sampleDoc : SettingsDoc := [("theme", "dark")]

/-- A transposed frame is never the frame it was made from: copying
transforms produce a new object. -/
theorem frame_transposed_ne (f : Frame) : Frame.transposed f ≠ f := by
  intro h
  have hs := congrArg (fun x => sizeOf x) h
  simp at hs

/-- Claim C1: `send_image_async` with the busy flag set is a silent
no-op (state unchanged, nothing queued, no "send started"
notification); with the busy flag clear and a device selected it
marks busy and fires exactly one "send started" notification; and two
submissions in rapid succession while the first transfer is still in
flight produce exactly one "send started" notification in total. -/
theorem send_image_async_spec (c : DeviceController) (p q : List Nat)
    (w h w2 h2 : Nat) :
    (c.send_busy = true → c.send_image_async p w h = (c, [])) ∧
    (c.send_busy = false → c.selected_device.isSome = true →
      c.send_image_async p w h =
        ({ c with send_busy := true }, [Notif.sendStarted])) ∧
    (c.send_busy = false → c.selected_device.isSome = true →
      (c.send_image_async p w h).2 ++
        ((c.send_image_async p w h).1.send_image_async q w2 h2).2 =
        [Notif.sendStarted]) := by
  refine ⟨?_, ?_, ?_⟩
  · intro hb
    simp [DeviceController.send_image_async, hb]
  · intro hb hs
    cases hsel : c.selected_device with
    | none => rw [hsel] at hs; simp at hs
    | some d => simp [DeviceController.send_image_async, hb, hsel]
  · intro hb hs
    cases hsel : c.selected_device with
    | none => rw [hsel] at hs; simp at hs
    | some d => simp [DeviceController.send_image_async, hb, hsel]

/-- Claim C1 witness: on the concrete busy channel nothing fires; on
the concrete idle channel with a selected device one "send started"
fires, and a second rapid submission adds none. -/
theorem send_image_async_spec_witness :
    (busyChannel.send_busy = true ∧
      busyChannel.send_image_async [0] 1 1 = (busyChannel, [])) ∧
    (idleChannel.send_busy = false ∧
      idleChannel.selected_device.isSome = true ∧
      idleChannel.send_image_async (List.replicate 100 0) 10 10 =
        ({ idleChannel with send_busy := true }, [Notif.sendStarted])) ∧
    (idleChannel.send_image_async (List.replicate 100 0) 10 10).2 ++
      ((idleChannel.send_image_async (List.replicate 100 0) 10 10).1.send_image_async
        (List.replicate 100 0) 10 10).2 = [Notif.sendStarted] :=
  ⟨⟨rfl, (send_image_async_spec busyChannel [0] [0] 1 1 1 1).1 rfl⟩,
   ⟨rfl, rfl,
    (send_image_async_spec idleChannel (List.replicate 100 0)
      (List.replicate 100 0) 10 10 10 10).2.1 rfl rfl⟩,
   (send_image_async_spec idleChannel (List.replicate 100 0)
      (List.replicate 100 0) 10 10 10 10).2.2 rfl rfl⟩

/-- Claim C2: `tick()` in a non-PLAYING state returns no frame, fires
no notification and leaves the state untouched; `tick()` while
PLAYING (with the cursor invariant `total_frames = frames.length`
and at least one frame) advances the cursor by one wrapping at
`frame_count`, returns the frame at the new cursor and fires exactly
one "send frame" notification carrying that frame. -/
theorem tick_spec (c : VideoController) :
    (c.state ≠ PlaybackState.playing → c.tick = (c, none, [])) ∧
    (c.state = PlaybackState.playing →
      c.total_frames = c.frames.length →
      0 < c.frames.length →
      ∃ f, c.frames.get? ((c.current_frame + 1) % c.total_frames) = some f ∧
        c.tick =
          ({ c with current_frame := (c.current_frame + 1) % c.total_frames },
            some f, [Notif.sendFrame f])) := by
  constructor
  · intro hns
    cases hs : c.state with
    | playing => exact absurd hs hns
    | stopped => simp [VideoController.tick, hs]
    | paused => simp [VideoController.tick, hs]
  · intro hp htot hlen
    have hlt : (c.current_frame + 1) % c.total_frames < c.frames.length := by
      rw [htot]
      exact Nat.mod_lt _ hlen
    obtain ⟨f, hf⟩ : ∃ f,
        c.frames.get? ((c.current_frame + 1) % c.total_frames) = some f := by
      rw [List.get?_eq_get hlt]
      exact ⟨_, rfl⟩
    have hf' : c.frames[(c.current_frame + 1) % c.total_frames]? = some f := by
      rw [← List.get?_eq_getElem?]
      exact hf
    exact ⟨f, hf, by simp [VideoController.tick, hp, hf']⟩

/-- Claim C2 witness: on the concrete stopped engine `tick` is inert;
on the concrete playing engine with two frames and cursor 0, `tick`
moves the cursor to 1, returns the frame at index 1 and fires one
"send frame" notification with it. -/
theorem tick_spec_witness :
    (defaultVideo.state ≠ PlaybackState.playing ∧
      defaultVideo.tick = (defaultVideo, none, [])) ∧
    (playingVideo.state = PlaybackState.playing ∧
      playingVideo.total_frames = playingVideo.frames.length ∧
      0 < playingVideo.frames.length ∧
      ∃ f, playingVideo.frames.get?
            ((playingVideo.current_frame + 1) % playingVideo.total_frames) =
            some f ∧
        playingVideo.tick =
          ({ playingVideo with
              current_frame :=
                (playingVideo.current_frame + 1) % playingVideo.total_frames },
            some f, [Notif.sendFrame f])) :=
  ⟨⟨by decide, (tick_spec defaultVideo).1 (by decide)⟩,
   ⟨rfl, rfl, by decide, (tick_spec playingVideo).2 rfl rfl (by decide)⟩⟩

/-- Claim C3: `set_resolution(w,h)` with `(w,h)` equal to the current
geometry changes nothing and fires no "resolution changed"
notification; with a different value it stores the new width and
height, propagates the new target size to both the Playback Engine's
and the Overlay Compositor's `target_size`, and fires exactly one
"resolution changed" notification. -/
theorem set_resolution_spec (c : FormCZTVController) (w h : Nat) :
    (w = c.lcd_width ∧ h = c.lcd_height → c.set_resolution w h = (c, [])) ∧
    (¬(w = c.lcd_width ∧ h = c.lcd_height) →
      (c.set_resolution w h).1.lcd_width = w ∧
      (c.set_resolution w h).1.lcd_height = h ∧
      (c.set_resolution w h).1.video.target_size = (w, h) ∧
      (c.set_resolution w h).1.overlay.target_size = (w, h) ∧
      (c.set_resolution w h).2 = [Notif.resolutionChanged w h]) := by
  constructor
  · intro heq
    simp [FormCZTVController.set_resolution, heq]
  · intro hne
    simp [FormCZTVController.set_resolution, hne]

/-- Claim C3 witness: on the concrete (320, 320) orchestrator,
`set_resolution(320, 320)` is a silent no-op, and
`set_resolution(480, 480)` stores 480×480, propagates (480, 480) to
both sub-controllers and fires exactly one notification. -/
theorem set_resolution_spec_witness :
    ((320 = baseController.lcd_width ∧ 320 = baseController.lcd_height) ∧
      baseController.set_resolution 320 320 = (baseController, [])) ∧
    (¬(480 = baseController.lcd_width ∧ 480 = baseController.lcd_height) ∧
      (baseController.set_resolution 480 480).1.lcd_width = 480 ∧
      (baseController.set_resolution 480 480).1.lcd_height = 480 ∧
      (baseController.set_resolution 480 480).1.video.target_size = (480, 480) ∧
      (baseController.set_resolution 480 480).1.overlay.target_size = (480, 480) ∧
      (baseController.set_resolution 480 480).2 =
        [Notif.resolutionChanged 480 480]) :=
  ⟨⟨by decide, (set_resolution_spec baseController 320 320).1 (by decide)⟩,
   ⟨by decide, (set_resolution_spec baseController 480 480).2 (by decide)⟩⟩

/-- Claim C4: `set_rotation(d)` stores `d mod 360`; in particular
`set_rotation(450)` results in a stored rotation of 90. -/
theorem set_rotation_spec (c : FormCZTVController) (d : Int) :
    (c.set_rotation d).rotation = d % 360 ∧
    (c.set_rotation 450).rotation = 90 :=
  ⟨rfl, by show (450 : Int) % 360 = 90; decide⟩

/-- Claim C5: the rotation transform at 0 degrees returns the input
frame itself (same identity, no copy) and the brightness transform at
100 percent returns the input frame itself; a non-zero rotation
instead produces the transposed frame, a different object. -/
theorem transform_identity_spec (c : FormCZTVController) (img : Frame) :
    (c.rotation = 0 → c.apply_rotation img = img) ∧
    (c.brightness = 100 → c.apply_brightness img = img) ∧
    (c.rotation ≠ 0 →
      c.apply_rotation img = Frame.transposed img ∧
      c.apply_rotation img ≠ img) := by
  refine ⟨?_, ?_, ?_⟩
  · intro hr
    simp [FormCZTVController.apply_rotation, hr]
  · intro hb
    simp [FormCZTVController.apply_brightness, hb]
  · intro hr
    constructor
    · simp [FormCZTVController.apply_rotation, hr]
    · simp [FormCZTVController.apply_rotation, hr]
      exact frame_transposed_ne img

/-- Claim C5 witness: the fresh orchestrator (rotation 0, brightness
100) leaves a concrete frame untouched by both transforms, and after
`set_rotation(180)` the rotation transform yields the transposed
frame, which differs from the input. -/
theorem transform_identity_spec_witness :
    (baseController.rotation = 0 ∧
      baseController.apply_rotation (Frame.base 3) = Frame.base 3) ∧
    (baseController.brightness = 100 ∧
      baseController.apply_brightness (Frame.base 3) = Frame.base 3) ∧
    (rotatedController.rotation ≠ 0 ∧
      rotatedController.apply_rotation (Frame.base 3) =
        Frame.transposed (Frame.base 3) ∧
      rotatedController.apply_rotation (Frame.base 3) ≠ Frame.base 3) :=
  ⟨⟨by decide, (transform_identity_spec baseController (Frame.base 3)).1 (by decide)⟩,
   ⟨by decide,
    (transform_identity_spec baseController (Frame.base 3)).2.1 (by decide)⟩,
   ⟨by decide,
    (transform_identity_spec rotatedController (Frame.base 3)).2.2 (by decide)⟩⟩

/-- Claim C6: `render()` while the overlay is disabled returns the
background input itself (the very same frame, not a copy). -/
theorem render_disabled_spec (c : OverlayController) (h : c.enabled = false) :
    c.render = c.background := by
  simp [OverlayController.render, h]

/-- Claim C6 witness: the concrete disabled compositor's `render`
returns its background frame. -/
theorem render_disabled_spec_witness :
    disabledOverlay.enabled = false ∧
    disabledOverlay.render = disabledOverlay.background :=
  ⟨rfl, render_disabled_spec disabledOverlay rfl⟩

/-- Claim C7: `add_element`, `update_element` and `remove_element`
each fire exactly one "configuration changed" notification when
applied to a valid index, and the sequence of one add, one update of
index 0 and one remove of index 0 fires exactly three notifications
in total. -/
theorem overlay_crud_notifications (c : OverlayController)
    (e e' : OverlayElement) (i j : Nat) :
    (c.add_element e).2 = [Notif.configChanged] ∧
    (i < c.elements.length →
      (c.update_element i e').2 = [Notif.configChanged]) ∧
    (j < c.elements.length →
      (c.remove_element j).2 = [Notif.configChanged]) ∧
    (c.add_element e).2 ++
        ((c.add_element e).1.update_element 0 e').2 ++
        (((c.add_element e).1.update_element 0 e').1.remove_element 0).2 =
      [Notif.configChanged, Notif.configChanged, Notif.configChanged] := by
  refine ⟨rfl, ?_, ?_, ?_⟩
  · intro hi
    simp [OverlayController.update_element, hi]
  · intro hj
    simp [OverlayController.remove_element, hj]
  · have h1 : 0 < ((c.add_element e).1).elements.length := by
      simp [OverlayController.add_element]
    have h2 : ((c.add_element e).1.update_element 0 e').1.elements.length =
        ((c.add_element e).1).elements.length := by
      simp [OverlayController.update_element, h1]
    simp [OverlayController.add_element, OverlayController.update_element,
      OverlayController.remove_element, h1, h2] at h2 ⊢

/-- Claim C7 witness: starting from the concrete one-element
compositor, `update_element 0` and `remove_element 0` each fire one
notification, and an add/update/remove sequence fires three. -/
theorem overlay_crud_notifications_witness :
    (oneElemOverlay.add_element { text := "x" }).2 = [Notif.configChanged] ∧
    (0 < oneElemOverlay.elements.length ∧
      (oneElemOverlay.update_element 0 { text := "new" }).2 =
        [Notif.configChanged]) ∧
    (0 < oneElemOverlay.elements.length ∧
      (oneElemOverlay.remove_element 0).2 = [Notif.configChanged]) ∧
    (oneElemOverlay.add_element { text := "x" }).2 ++
        ((oneElemOverlay.add_element { text := "x" }).1.update_element 0
          { text := "new" }).2 ++
        (((oneElemOverlay.add_element { text := "x" }).1.update_element 0
          { text := "new" }).1.remove_element 0).2 =
      [Notif.configChanged, Notif.configChanged, Notif.configChanged] :=
  ⟨(overlay_crud_notifications oneElemOverlay { text := "x" }
      { text := "new" } 0 0).1,
   ⟨by decide,
    (overlay_crud_notifications oneElemOverlay { text := "x" }
      { text := "new" } 0 0).2.1 (by decide)⟩,
   ⟨by decide,
    (overlay_crud_notifications oneElemOverlay { text := "x" }
      { text := "new" } 0 0).2.2.1 (by decide)⟩,
   (overlay_crud_notifications oneElemOverlay { text := "x" }
      { text := "new" } 0 0).2.2.2⟩

/-- Looking up the key just written by `setKey` finds the new
value. -/
theorem lookupKey_setKey_self (doc : SettingsDoc) (key v : String) :
    SettingsDoc.lookupKey (SettingsDoc.setKey doc key v) key = some v := by
  induction doc with
  | nil => simp [SettingsDoc.setKey, SettingsDoc.lookupKey]
  | cons hd rest ih =>
    obtain ⟨a, b⟩ := hd
    by_cases hk : a = key
    · simp [SettingsDoc.setKey, SettingsDoc.lookupKey, hk]
    · simp [SettingsDoc.setKey, SettingsDoc.lookupKey, hk, ih]

/-- `setKey` leaves the lookup of every other key unchanged. -/
theorem lookupKey_setKey_other (doc : SettingsDoc) (key v k : String)
    (hne : k ≠ key) :
    SettingsDoc.lookupKey (SettingsDoc.setKey doc key v) k =
      SettingsDoc.lookupKey doc k := by
  have hkk : ¬key = k := fun hcontra => hne hcontra.symm
  induction doc with
  | nil => simp [SettingsDoc.setKey, SettingsDoc.lookupKey, hkk]
  | cons hd rest ih =>
    obtain ⟨a, b⟩ := hd
    by_cases hk : a = key
    · simp [SettingsDoc.setKey, SettingsDoc.lookupKey, hk, hkk]
    · by_cases hak : a = k
      · simp [SettingsDoc.setKey, SettingsDoc.lookupKey, hk, hak, hne]
      · simp [SettingsDoc.setKey, SettingsDoc.lookupKey, hk, hak, ih]

/-- Claim C8: writing the selected device merges into the existing
settings document rather than overwriting it: every key other than
`selected_device` keeps its previous value, and a subsequent read of
the selected device returns the value just written (round-trip). -/
theorem set_selected_device_merges (doc : SettingsDoc) (p k : String)
    (hk : k ≠ "selected_device") :
    get_selected_device (set_selected_device doc p) = some p ∧
    SettingsDoc.lookupKey (set_selected_device doc p) k =
      SettingsDoc.lookupKey doc k :=
  ⟨lookupKey_setKey_self doc "selected_device" p,
   lookupKey_setKey_other doc "selected_device" p k hk⟩

/-- Claim C8 witness: on the concrete document holding
`theme = dark`, writing `/dev/sg2` as the selected device round-trips
and leaves the `theme` key bound to `dark`. -/
theorem set_selected_device_merges_witness :
    ("theme" : String) ≠ "selected_device" ∧
    (get_selected_device (set_selected_device sampleDoc "/dev/sg2") =
        some "/dev/sg2" ∧
      SettingsDoc.lookupKey (set_selected_device sampleDoc "/dev/sg2") "theme" =
        SettingsDoc.lookupKey sampleDoc "theme") ∧
    SettingsDoc.lookupKey sampleDoc "theme" = some "dark" :=
  ⟨by decide, set_selected_device_merges sampleDoc "/dev/sg2" "theme" (by decide),
   by decide⟩

/-- Claim C9: `frame_interval_ms()` is `round(1000 / fps)` (Python
rounding), the fps defaults to 16, and the default frame interval is
therefore exactly 62 milliseconds. -/
theorem frame_interval_spec :
    (∀ c : VideoController, c.get_frame_interval = pythonRound 1000 c.fps) ∧
    defaultVideo.fps = 16 ∧
    defaultVideo.get_frame_interval = 62 :=
  ⟨fun _ => rfl, rfl, by decide⟩

/-- Claim C10: a freshly constructed Session Orchestrator has
`auto_send` enabled, so the per-tick send decision hands the composed
frame's payload straight to the Device Channel's asynchronous submit
until the caller disables `auto_send`. -/
theorem auto_send_default_spec :
    (∀ w h, (FormCZTVController.init w h).auto_send = true) ∧
    (∀ w h dev payload,
      (FormCZTVController.init w h).tick_send dev payload =
        dev.send_image_async payload w h) :=
  ⟨fun _ _ => rfl, fun _ _ _ _ => rfl⟩
